import Mathlib

/-!
Verification of the Doha Magazine chat service (`app/services/storage.py`,
`app/services/chat.py`, `app/services/retrieval.py`) against its
natural-language specification.

Modelling conventions:
* Python strings are modelled as `List Char` where character-level operations
  matter (the chat module), and as `String` where only equality matters
  (ids and roles in the storage module).
* Python floats are modelled as `Rat` (exact rational arithmetic standing in
  for IEEE doubles; all comparisons in the source are far from representation
  boundaries).
* A Cosmos DB message dict may lack the `feedback` key, carry `None`, or carry
  a string; this is modelled as `Option (Option String)` (`none` = key absent,
  `some none` = key present with `None`, `some (some v)` = key present with a
  string value).
* The per-session Cosmos document is modelled as an explicit state record;
  container unavailability is an `available` flag; wall-clock fields
  (`last_updated`, message timestamps) are omitted as nondeterministic.
-/

namespace DohaMag

/-- A message dict as stored inside a session document
(`storage.py` `save_message` / `update_message_feedback`). -/
structure Msg where
  id : String
  role : String
  text : String
  feedback : Option (Option String)
  deriving DecidableEq, Repr

/-- Python `msg.get("feedback")`: `None` both when the key is absent and when
it is present with value `None`. -/
def Msg.getFeedback (m : Msg) : Option String :=
  m.feedback.getD none

/-- Python `"feedback" in msg`. -/
def Msg.hasFeedbackField (m : Msg) : Bool :=
  m.feedback.isSome

/-- The four running counters of the statistics loops in `storage.py`. -/
structure FeedbackCounts where
  positive : Nat
  negative : Nat
  nullCount : Nat
  total : Nat
  deriving DecidableEq, Repr

/-- The counting loop of `update_feedback_statistics`
(`storage.py` lines 293-316), one accumulator step per message. -/
def updateStatsLoop : List Msg → FeedbackCounts → FeedbackCounts
  | [], acc => acc
  | m :: rest, acc =>
    if m.role == "assistant" then
      let acc1 := { acc with total := acc.total + 1 }
      let feedback := m.getFeedback
      let hasField := m.hasFeedbackField
      let acc2 :=
        if feedback == some "up" then { acc1 with positive := acc1.positive + 1 }
        else if feedback == some "down" then { acc1 with negative := acc1.negative + 1 }
        else if feedback == none && hasField then { acc1 with nullCount := acc1.nullCount + 1 }
        else if !hasField then acc1
        else { acc1 with nullCount := acc1.nullCount + 1 }
      updateStatsLoop rest acc2
    else updateStatsLoop rest acc

/-- The counting loop of `recalculate_all_statistics`
(`storage.py` lines 434-457), one accumulator step per message. -/
def recalcStatsLoop : List Msg → FeedbackCounts → FeedbackCounts
  | [], acc => acc
  | m :: rest, acc =>
    if m.role == "assistant" then
      let acc1 := { acc with total := acc.total + 1 }
      let feedback := m.getFeedback
      let acc2 :=
        if feedback == some "up" then { acc1 with positive := acc1.positive + 1 }
        else if feedback == some "down" then { acc1 with negative := acc1.negative + 1 }
        else if feedback == none then
          (if m.hasFeedbackField then { acc1 with nullCount := acc1.nullCount + 1 } else acc1)
        else { acc1 with nullCount := acc1.nullCount + 1 }
      recalcStatsLoop rest acc2
    else recalcStatsLoop rest acc

/-- The statistics object built by both statistics functions in `storage.py`
(`positive_ratio` / `negative_ratio` are named `positiveRate` / `negativeRate`
here; the wall-clock `last_updated` field is omitted). -/
structure FeedbackStats where
  positive : Nat
  negative : Nat
  nullCount : Nat
  total_assistant_messages : Nat
  positiveRate : Rat
  negativeRate : Rat
  overall_feedback : String
  deriving DecidableEq, Repr

/-- `update_feedback_statistics` (`storage.py` lines 262-355) as a pure
function of the session's message list: counts, ratios and overall label. -/
def update_feedback_statistics_stats (messages : List Msg) : FeedbackStats :=
  let c := updateStatsLoop messages ⟨0, 0, 0, 0⟩
  let overall :=
    if c.total > 0 then
      let positive_r : Rat := (c.positive : Rat) / (c.total : Rat)
      let negative_r : Rat := (c.negative : Rat) / (c.total : Rat)
      if positive_r > negative_r ∧ positive_r > 3/10 then "positive"
      else if negative_r > positive_r ∧ negative_r > 3/10 then "negative"
      else "neutral"
    else "no_feedback"
  { positive := c.positive
    negative := c.negative
    nullCount := c.nullCount
    total_assistant_messages := c.total
    positiveRate := if c.total > 0 then (c.positive : Rat) / (c.total : Rat) else 0
    negativeRate := if c.total > 0 then (c.negative : Rat) / (c.total : Rat) else 0
    overall_feedback := overall }

/-- `recalculate_all_statistics` (`storage.py` lines 401-496) as a pure
function of the session's message list: counts, ratios and overall label. -/
def recalculate_all_statistics_stats (messages : List Msg) : FeedbackStats :=
  let c := recalcStatsLoop messages ⟨0, 0, 0, 0⟩
  let overall :=
    if c.total > 0 then
      let positive_r : Rat := (c.positive : Rat) / (c.total : Rat)
      let negative_r : Rat := (c.negative : Rat) / (c.total : Rat)
      if positive_r > negative_r ∧ positive_r > 3/10 then "positive"
      else if negative_r > positive_r ∧ negative_r > 3/10 then "negative"
      else "neutral"
    else "no_feedback"
  { positive := c.positive
    negative := c.negative
    nullCount := c.nullCount
    total_assistant_messages := c.total
    positiveRate := if c.total > 0 then (c.positive : Rat) / (c.total : Rat) else 0
    negativeRate := if c.total > 0 then (c.negative : Rat) / (c.total : Rat) else 0
    overall_feedback := overall }

/-- The two counting loops agree step by step. -/
theorem statsLoop_eq (messages : List Msg) :
    ∀ acc, updateStatsLoop messages acc = recalcStatsLoop messages acc := by
  induction messages with
  | nil => intro acc; rfl
  | cons m rest ih =>
    intro acc
    rcases m with ⟨i, r, t, fb⟩
    by_cases hr : (r == "assistant") = true
    · rcases fb with _ | fb
      · simp [updateStatsLoop, recalcStatsLoop, hr, Msg.getFeedback, Msg.hasFeedbackField, ih]
      · rcases fb with _ | v
        · simp [updateStatsLoop, recalcStatsLoop, hr, Msg.getFeedback, Msg.hasFeedbackField, ih]
        · by_cases hv : (v == "up") = true
          · simp [updateStatsLoop, recalcStatsLoop, hr, hv, Msg.getFeedback,
              Msg.hasFeedbackField, ih]
          · by_cases hv2 : (v == "down") = true
            · simp [updateStatsLoop, recalcStatsLoop, hr, hv, hv2, Msg.getFeedback,
                Msg.hasFeedbackField, ih]
            · simp [updateStatsLoop, recalcStatsLoop, hr, hv, hv2, Msg.getFeedback,
                Msg.hasFeedbackField, ih]
    · simp [updateStatsLoop, recalcStatsLoop, hr, ih]

/-- C1: For every session message list, the incremental statistics path
(`update_feedback_statistics`) and the recalculate-from-scratch path
(`recalculate_all_statistics`) produce identical positive, negative, and null
counts, identical positive/negative ratios, and the same `overall_feedback`
label. -/
theorem feedback_stats_paths_agree (messages : List Msg) :
    update_feedback_statistics_stats messages = recalculate_all_statistics_stats messages := by
  unfold update_feedback_statistics_stats recalculate_all_statistics_stats
  rw [statsLoop_eq]

/-- Number of assistant messages. -/
def assistantCount (messages : List Msg) : Nat :=
  messages.countP (fun m => m.role == "assistant")

/-- Assistant messages rated `up`. -/
def upCount (messages : List Msg) : Nat :=
  messages.countP (fun m => m.role == "assistant" && m.getFeedback == some "up")

/-- Assistant messages rated `down`. -/
def downCount (messages : List Msg) : Nat :=
  messages.countP (fun m => m.role == "assistant" && m.getFeedback == some "down")

/-- Assistant messages whose `feedback` key is present but is neither `up`
nor `down` (explicitly cleared or some other value). -/
def unsetCount (messages : List Msg) : Nat :=
  messages.countP (fun m => m.role == "assistant" && m.hasFeedbackField
    && !(m.getFeedback == some "up") && !(m.getFeedback == some "down"))

/-- Assistant messages that lack the `feedback` key entirely ("never rated"). -/
def neverRatedCount (messages : List Msg) : Nat :=
  messages.countP (fun m => m.role == "assistant" && m.feedback.isNone)

/-- Closed form of the `total_assistant_messages` counter. -/
theorem updateStatsLoop_total (messages : List Msg) :
    ∀ acc, (updateStatsLoop messages acc).total = acc.total + assistantCount messages := by
  induction messages with
  | nil => intro acc; simp [updateStatsLoop, assistantCount]
  | cons m rest ih =>
    intro acc
    rcases m with ⟨i, r, t, fb⟩
    by_cases hr : r = "assistant"
    · subst hr
      rcases fb with _ | fb
      · simp [updateStatsLoop, Msg.getFeedback, Msg.hasFeedbackField, assistantCount,
          List.countP_cons, ih]
        omega
      · rcases fb with _ | v
        · simp [updateStatsLoop, Msg.getFeedback, Msg.hasFeedbackField, assistantCount,
            List.countP_cons, ih]
          omega
        · by_cases hv : v = "up"
          · subst hv
            simp [updateStatsLoop, Msg.getFeedback, Msg.hasFeedbackField, assistantCount,
              List.countP_cons, ih]
            omega
          · by_cases hv2 : v = "down"
            · subst hv2
              simp [updateStatsLoop, Msg.getFeedback, Msg.hasFeedbackField, assistantCount,
                List.countP_cons, ih]
              omega
            · simp [updateStatsLoop, Msg.getFeedback, Msg.hasFeedbackField, assistantCount,
                List.countP_cons, ih, hv, hv2]
              omega
    · simp [updateStatsLoop, assistantCount, List.countP_cons, ih, hr]

/-- Closed form of the `positive` counter. -/
theorem updateStatsLoop_positive (messages : List Msg) :
    ∀ acc, (updateStatsLoop messages acc).positive = acc.positive + upCount messages := by
  induction messages with
  | nil => intro acc; simp [updateStatsLoop, upCount]
  | cons m rest ih =>
    intro acc
    rcases m with ⟨i, r, t, fb⟩
    by_cases hr : r = "assistant"
    · subst hr
      rcases fb with _ | fb
      · simp [updateStatsLoop, Msg.getFeedback, Msg.hasFeedbackField, upCount,
          List.countP_cons, ih]
      · rcases fb with _ | v
        · simp [updateStatsLoop, Msg.getFeedback, Msg.hasFeedbackField, upCount,
            List.countP_cons, ih]
        · by_cases hv : v = "up"
          · subst hv
            simp [updateStatsLoop, Msg.getFeedback, Msg.hasFeedbackField, upCount,
              List.countP_cons, ih]
            omega
          · by_cases hv2 : v = "down"
            · subst hv2
              simp [updateStatsLoop, Msg.getFeedback, Msg.hasFeedbackField, upCount,
                List.countP_cons, ih]
            · simp [updateStatsLoop, Msg.getFeedback, Msg.hasFeedbackField, upCount,
                List.countP_cons, ih, hv, hv2]
    · simp [updateStatsLoop, upCount, List.countP_cons, ih, hr]

/-- Closed form of the `negative` counter. -/
theorem updateStatsLoop_negative (messages : List Msg) :
    ∀ acc, (updateStatsLoop messages acc).negative = acc.negative + downCount messages := by
  induction messages with
  | nil => intro acc; simp [updateStatsLoop, downCount]
  | cons m rest ih =>
    intro acc
    rcases m with ⟨i, r, t, fb⟩
    by_cases hr : r = "assistant"
    · subst hr
      rcases fb with _ | fb
      · simp [updateStatsLoop, Msg.getFeedback, Msg.hasFeedbackField, downCount,
          List.countP_cons, ih]
      · rcases fb with _ | v
        · simp [updateStatsLoop, Msg.getFeedback, Msg.hasFeedbackField, downCount,
            List.countP_cons, ih]
        · by_cases hv : v = "up"
          · subst hv
            simp [updateStatsLoop, Msg.getFeedback, Msg.hasFeedbackField, downCount,
              List.countP_cons, ih]
          · by_cases hv2 : v = "down"
            · subst hv2
              simp [updateStatsLoop, Msg.getFeedback, Msg.hasFeedbackField, downCount,
                List.countP_cons, ih]
              omega
            · simp [updateStatsLoop, Msg.getFeedback, Msg.hasFeedbackField, downCount,
                List.countP_cons, ih, hv, hv2]
    · simp [updateStatsLoop, downCount, List.countP_cons, ih, hr]

/-- Closed form of the `null` counter. -/
theorem updateStatsLoop_nullCount (messages : List Msg) :
    ∀ acc, (updateStatsLoop messages acc).nullCount = acc.nullCount + unsetCount messages := by
  induction messages with
  | nil => intro acc; simp [updateStatsLoop, unsetCount]
  | cons m rest ih =>
    intro acc
    rcases m with ⟨i, r, t, fb⟩
    by_cases hr : r = "assistant"
    · subst hr
      rcases fb with _ | fb
      · simp [updateStatsLoop, Msg.getFeedback, Msg.hasFeedbackField, unsetCount,
          List.countP_cons, ih]
      · rcases fb with _ | v
        · simp [updateStatsLoop, Msg.getFeedback, Msg.hasFeedbackField, unsetCount,
            List.countP_cons, ih]
          omega
        · by_cases hv : v = "up"
          · subst hv
            simp [updateStatsLoop, Msg.getFeedback, Msg.hasFeedbackField, unsetCount,
              List.countP_cons, ih]
          · by_cases hv2 : v = "down"
            · subst hv2
              simp [updateStatsLoop, Msg.getFeedback, Msg.hasFeedbackField, unsetCount,
                List.countP_cons, ih]
            · simp [updateStatsLoop, Msg.getFeedback, Msg.hasFeedbackField, unsetCount,
                List.countP_cons, ih, hv, hv2]
              omega
    · simp [updateStatsLoop, unsetCount, List.countP_cons, ih, hr]

/-- The four buckets partition the assistant messages. -/
theorem bucket_partition (messages : List Msg) :
    upCount messages + downCount messages + unsetCount messages + neverRatedCount messages
      = assistantCount messages := by
  induction messages with
  | nil => simp [upCount, downCount, unsetCount, neverRatedCount, assistantCount]
  | cons m rest ih =>
    rcases m with ⟨i, r, t, fb⟩
    by_cases hr : r = "assistant"
    · subst hr
      rcases fb with _ | fb
      · simp [upCount, downCount, unsetCount, neverRatedCount, assistantCount,
          List.countP_cons, Msg.getFeedback, Msg.hasFeedbackField] at ih ⊢
        omega
      · rcases fb with _ | v
        · simp [upCount, downCount, unsetCount, neverRatedCount, assistantCount,
            List.countP_cons, Msg.getFeedback, Msg.hasFeedbackField] at ih ⊢
          omega
        · by_cases hv : v = "up"
          · subst hv
            simp [upCount, downCount, unsetCount, neverRatedCount, assistantCount,
              List.countP_cons, Msg.getFeedback, Msg.hasFeedbackField] at ih ⊢
            omega
          · by_cases hv2 : v = "down"
            · subst hv2
              simp [upCount, downCount, unsetCount, neverRatedCount, assistantCount,
                List.countP_cons, Msg.getFeedback, Msg.hasFeedbackField] at ih ⊢
              omega
            · simp [upCount, downCount, unsetCount, neverRatedCount, assistantCount,
                List.countP_cons, Msg.getFeedback, Msg.hasFeedbackField, hv, hv2] at ih ⊢
              omega
    · simp [upCount, downCount, unsetCount, neverRatedCount, assistantCount,
        List.countP_cons, hr] at ih ⊢
      omega

/-- C2: the four feedback buckets partition the assistant messages: computed
positive count, negative count, unset count (field present but not up/down),
and the never-rated count (field absent) sum to `total_assistant_messages`. -/
theorem feedback_counts_partition (messages : List Msg) :
    (update_feedback_statistics_stats messages).positive
      + (update_feedback_statistics_stats messages).negative
      + (update_feedback_statistics_stats messages).nullCount
      + neverRatedCount messages
    = (update_feedback_statistics_stats messages).total_assistant_messages := by
  have hp := updateStatsLoop_positive messages ⟨0, 0, 0, 0⟩
  have hn := updateStatsLoop_negative messages ⟨0, 0, 0, 0⟩
  have hnl := updateStatsLoop_nullCount messages ⟨0, 0, 0, 0⟩
  have ht := updateStatsLoop_total messages ⟨0, 0, 0, 0⟩
  have hb := bucket_partition messages
  simp only [update_feedback_statistics_stats, hp, hn, hnl, ht]
  omega

/-! ## Session store operations (`storage.py`) -/

/-- The per-session Cosmos document (`{id, session_id, messages, message_count,
feedback_statistics}`); the `id` / `session_id` fields both hold the session
id and are collapsed into `sessionId`. -/
structure SessionDoc where
  sessionId : String
  messages : List Msg
  messageCount : Nat
  feedbackStats : Option FeedbackStats
  deriving DecidableEq, Repr

/-- The state visible to `StorageService` for one session: whether the
messages container is available, and the stored session document (`none` when
`read_item` raises NotFound). -/
structure StorageState where
  available : Bool
  doc : Option SessionDoc
  deriving DecidableEq, Repr

/-- `save_message` (`storage.py` lines 59-127). The freshly generated
`uuid.uuid4()` message id is passed in as `newId` (it is nondeterministic in
the source); returns the Python return value and the poststate. On the
existing-session path with an assistant role the statistics recomputation of
`update_feedback_statistics` runs as part of the same update; on the
create-new-session path it does not. -/
def save_message (st : StorageState) (sessionId newId role text : String) :
    String × StorageState :=
  if !st.available then ("", st)
  else
    let new_message : Msg := { id := newId, role := role, text := text, feedback := none }
    match st.doc with
    | some existing =>
      let msgs := existing.messages ++ [new_message]
      let updated := { existing with messages := msgs, messageCount := msgs.length }
      let updated :=
        if role == "assistant" then
          { updated with feedbackStats := some (update_feedback_statistics_stats msgs) }
        else updated
      (newId, { st with doc := some updated })
    | none =>
      let session_data : SessionDoc :=
        { sessionId := sessionId, messages := [new_message],
          messageCount := 1, feedbackStats := none }
      (newId, { st with doc := some session_data })

/-- The `Message` pydantic object returned by `get_session_messages`
(`app/models.py`). -/
structure MessageOut where
  id : String
  role : String
  text : String
  feedback : Option String
  deriving DecidableEq, Repr

/-- Python `l[-limit:]` for a nonnegative `limit` (note `l[-0:]` is the whole
list). -/
def pySliceLast (l : List α) (limit : Nat) : List α :=
  if limit = 0 then l else l.drop (l.length - limit)

/-- `get_session_messages` (`storage.py` lines 129-173): reads the session
document, takes the last `limit` messages and converts them to `Message`
objects, reporting feedback only for assistant messages. -/
def get_session_messages (st : StorageState) (limit : Nat) : List MessageOut :=
  if !st.available then []
  else
    match st.doc with
    | none => []
    | some doc =>
      (pySliceLast doc.messages limit).map (fun msg =>
        { id := msg.id, role := msg.role, text := msg.text,
          feedback := if msg.role == "assistant" then msg.getFeedback else none })

/-- The message-scanning loop of `update_message_feedback` (`storage.py`
lines 206-223): returns the updated message list when the first message with
the given id is an assistant message, and `none` either when no message
matches or when the first match is not an assistant message (the loop
returns `False` immediately in that case). -/
def umfFind (messageId : String) (feedback : Option String) : List Msg → Option (List Msg)
  | [] => none
  | m :: rest =>
    if m.id == messageId then
      if m.role == "assistant" then some ({ m with feedback := some feedback } :: rest)
      else none
    else
      match umfFind messageId feedback rest with
      | some rest2 => some (m :: rest2)
      | none => none

/-- `update_message_feedback` (`storage.py` lines 175-260): locates the
message by id, updates its feedback and upserts the document on success;
returns `False` leaving the store untouched when the container is
unavailable, the session document does not exist, the id is not found, or
the first matching message is not an assistant message. The upsert itself is
assumed to succeed (its failure mode is infrastructure unavailability,
covered by `available`). -/
def update_message_feedback (st : StorageState) (messageId : String)
    (feedback : Option String) : Bool × StorageState :=
  if !st.available then (false, st)
  else
    match st.doc with
    | none => (false, st)
    | some doc =>
      match umfFind messageId feedback doc.messages with
      | some newMsgs => (true, { st with doc := some { doc with messages := newMsgs } })
      | none => (false, st)

/-- If no message has the requested id, the scanning loop finds nothing. -/
theorem umfFind_of_find_none (messageId : String) (feedback : Option String) :
    ∀ msgs : List Msg, msgs.find? (fun m => m.id == messageId) = none →
      umfFind messageId feedback msgs = none := by
  intro msgs
  induction msgs with
  | nil => intro _; rfl
  | cons m rest ih =>
    intro h
    by_cases hid : (m.id == messageId) = true
    · simp only [List.find?_cons, hid] at h
      simp at h
    · have hid2 : (m.id == messageId) = false := by simpa using hid
      simp only [List.find?_cons, hid2] at h
      simp [umfFind, hid2, ih h]

/-- If the first message with the requested id is not an assistant message,
the scanning loop returns `none` (the source returns `False` immediately). -/
theorem umfFind_of_find_user (messageId : String) (feedback : Option String) :
    ∀ (msgs : List Msg) (m : Msg), msgs.find? (fun m => m.id == messageId) = some m →
      m.role ≠ "assistant" → umfFind messageId feedback msgs = none := by
  intro msgs
  induction msgs with
  | nil => intro m h; simp at h
  | cons m0 rest ih =>
    intro m h hrole
    by_cases hid : (m0.id == messageId) = true
    · simp only [List.find?_cons, hid] at h
      have hm : m0 = m := by simpa using h
      subst hm
      have hrole2 : (m0.role == "assistant") = false := by simpa using hrole
      simp [umfFind, hid, hrole2]
    · have hid2 : (m0.id == messageId) = false := by simpa using hid
      simp only [List.find?_cons, hid2] at h
      simp [umfFind, hid2, ih m h hrole]

/-- If the first message with the requested id is an assistant message, the
scanning loop updates exactly that message and keeps everything else. -/
theorem umfFind_of_find_assistant (messageId : String) (feedback : Option String) :
    ∀ (msgs : List Msg) (m : Msg), msgs.find? (fun m => m.id == messageId) = some m →
      m.role = "assistant" →
      ∃ pre post, msgs = pre ++ m :: post ∧ (∀ x ∈ pre, (x.id == messageId) = false) ∧
        umfFind messageId feedback msgs
          = some (pre ++ { m with feedback := some feedback } :: post) := by
  intro msgs
  induction msgs with
  | nil => intro m h; simp at h
  | cons m0 rest ih =>
    intro m h hrole
    by_cases hid : (m0.id == messageId) = true
    · simp only [List.find?_cons, hid] at h
      have hm : m0 = m := by simpa using h
      subst hm
      have hrole2 : (m0.role == "assistant") = true := by simpa using hrole
      exact ⟨[], rest, by simp, by simp, by simp [umfFind, hid, hrole2]⟩
    · have hid2 : (m0.id == messageId) = false := by simpa using hid
      simp only [List.find?_cons, hid2] at h
      rcases ih m h hrole with ⟨pre, post, heq, hpre, hfound⟩
      refine ⟨m0 :: pre, post, by simp [heq], ?_, by simp [umfFind, hid2, hfound]⟩
      intro x hx
      rcases List.mem_cons.mp hx with hx2 | hx2
      · subst hx2; exact hid2
      · exact hpre x hx2

/-- C3: with the store available, `update_message_feedback` returns `False`
and leaves the stored document untouched whenever the session does not exist,
the message id is not found, or the first message with that id is not an
assistant message; it returns `True` and persists exactly the document with
that assistant message's feedback replaced when the target is an assistant
message. -/
theorem update_message_feedback_spec (st : StorageState) (messageId : String)
    (rating : Option String) (hav : st.available = true) :
    (st.doc = none → update_message_feedback st messageId rating = (false, st)) ∧
    (∀ d, st.doc = some d →
      (d.messages.find? (fun m => m.id == messageId) = none →
        update_message_feedback st messageId rating = (false, st)) ∧
      (∀ m, d.messages.find? (fun m => m.id == messageId) = some m →
        (m.role ≠ "assistant" → update_message_feedback st messageId rating = (false, st)) ∧
        (m.role = "assistant" →
          (update_message_feedback st messageId rating).1 = true ∧
          ∃ pre post, d.messages = pre ++ m :: post ∧
            (∀ x ∈ pre, (x.id == messageId) = false) ∧
            (update_message_feedback st messageId rating).2
              = { st with doc := some { d with
                  messages := pre ++ { m with feedback := some rating } :: post } }))) := by
  constructor
  · intro hd
    simp [update_message_feedback, hav, hd]
  · intro d hd
    constructor
    · intro hfind
      have h := umfFind_of_find_none messageId rating d.messages hfind
      simp [update_message_feedback, hav, hd, h]
    · intro m hfind
      constructor
      · intro hrole
        have h := umfFind_of_find_user messageId rating d.messages m hfind hrole
        simp [update_message_feedback, hav, hd, h]
      · intro hrole
        rcases umfFind_of_find_assistant messageId rating d.messages m hfind hrole with
          ⟨pre, post, heq, hpre, hfound⟩
        refine ⟨?_, pre, post, heq, hpre, ?_⟩
        · simp [update_message_feedback, hav, hd, hfound]
        · simp [update_message_feedback, hav, hd, hfound]

/-- The assistant message of the concrete witness store. -/
def msgW : Msg :=
  { id := "a1", role := "assistant", text := "r", feedback := none }

/-- The session document of the concrete witness store: one user and one
assistant message. -/
def docW : SessionDoc :=
  { sessionId := "s1",
    messages := [{ id := "u1", role := "user", text := "q", feedback := none }, msgW],
    messageCount := 2, feedbackStats := none }

/-- Concrete store used by the witnesses below. -/
def stW : StorageState :=
  { available := true, doc := some docW }

/-- Witness for C3: updating feedback on the assistant message `a1` of `stW`
succeeds. -/
theorem update_message_feedback_spec_witness :
    (update_message_feedback stW "a1" (some "up")).1 = true :=
  ((((update_message_feedback_spec stW "a1" (some "up") rfl).2 docW rfl).2
    msgW (by decide)).2 rfl).1

/-- C10: with the store available, `save_message` followed immediately by
`get_session_messages` with `limit = 1` returns a one-element list whose
single message carries exactly the id returned by `save_message` and the
given role and text. -/
theorem save_then_get_roundtrip (st : StorageState) (sessionId newId role text : String)
    (hav : st.available = true) :
    (save_message st sessionId newId role text).1 = newId ∧
    get_session_messages (save_message st sessionId newId role text).2 1
      = [{ id := newId, role := role, text := text, feedback := none }] := by
  have hdrop : ∀ (l : List Msg) (a : Msg), (l ++ [a]).drop ((l ++ [a]).length - 1) = [a] := by
    intro l a
    induction l with
    | nil => simp
    | cons x xs ih => simp [ih]
  rcases hdoc : st.doc with _ | d
  · constructor
    · simp [save_message, hav, hdoc]
    · by_cases hrole : role = "assistant" <;>
        simp [save_message, get_session_messages, hav, hdoc, pySliceLast, Msg.getFeedback,
          hrole]
  · constructor
    · by_cases hrole : role = "assistant" <;>
        simp [save_message, hav, hdoc, hrole]
    · by_cases hrole : role = "assistant" <;>
        simp [save_message, get_session_messages, hav, hdoc, hrole, pySliceLast,
          hdrop, Msg.getFeedback]

/-- Witness for C10: saving an assistant message to `stW` and reading back
with limit 1 yields exactly that message. -/
theorem save_then_get_roundtrip_witness :
    (save_message stW "s1" "a2" "assistant" "hi").1 = "a2" ∧
    get_session_messages (save_message stW "s1" "a2" "assistant" "hi").2 1
      = [{ id := "a2", role := "assistant", text := "hi", feedback := none }] :=
  save_then_get_roundtrip stW "s1" "a2" "assistant" "hi" rfl

/-! ## Text helpers for the chat module (`chat.py`)

Python strings are sequences of code points, modelled as `List Char`. -/

/-- Python whitespace as recognized by `str.strip` / `str.split` /
`str.isspace`, restricted to the ASCII whitespace characters relevant to
this corpus. -/
def pyIsSpace (c : Char) : Bool :=
  c == ' ' || c == '\t' || c == '\n' || c == '\x0d' || c == '\x0b' || c == '\x0c'

/-- Python `s.strip()`: drop leading and trailing whitespace. -/
def pyStrip (s : List Char) : List Char :=
  ((s.dropWhile pyIsSpace).reverse.dropWhile pyIsSpace).reverse

/-- Python `s.isspace()`: nonempty and all whitespace. -/
def pyIsSpaceStr (s : List Char) : Bool :=
  !s.isEmpty && s.all pyIsSpace

/-- Python `s.lower()`: Arabic has no case, so only the ASCII range is
affected for this corpus. -/
def pyLower (s : List Char) : List Char :=
  s.map Char.toLower

/-- Does `hay` start with `needle`? -/
def beginsWith : List Char → List Char → Bool
  | [], _ => true
  | _ :: _, [] => false
  | a :: as, b :: bs => a == b && beginsWith as bs

/-- Python `needle in hay`: contiguous-substring containment. -/
def pyIn (needle : List Char) : List Char → Bool
  | [] => beginsWith needle []
  | c :: rest => beginsWith needle (c :: rest) || pyIn needle rest

/-- Word counter of Python `len(s.split())`: the number of maximal
nonempty runs of non-whitespace characters. `inWord` tracks whether the
previous character was part of a word. -/
def wordCountAux : List Char → Bool → Nat
  | [], _ => 0
  | c :: rest, inWord =>
    if pyIsSpace c then wordCountAux rest false
    else (if inWord then 0 else 1) + wordCountAux rest true

/-- `len(s.split())` for whitespace splitting. -/
def wordCount (s : List Char) : Nat :=
  wordCountAux s false

/-- A character of the Arabic Unicode block `؀`-`ۿ`
(`is_arabic_text`, `chat.py` line 215). -/
def isArabicChar (c : Char) : Bool :=
  0x600 ≤ c.toNat && c.toNat ≤ 0x6FF

/-- Python `char.isalpha()` modelled on the Basic Latin block plus the
letters of the Arabic block (the Arabic-block letter subranges of Unicode
category L; digits, diacritics and punctuation of the block are not
alphabetic). -/
def pyIsAlpha (c : Char) : Bool :=
  c.isAlpha
  || (0x620 ≤ c.toNat && c.toNat ≤ 0x64A)
  || (0x66E ≤ c.toNat && c.toNat ≤ 0x66F)
  || (0x671 ≤ c.toNat && c.toNat ≤ 0x6D3)
  || c.toNat == 0x6D5
  || (0x6EE ≤ c.toNat && c.toNat ≤ 0x6EF)
  || (0x6FA ≤ c.toNat && c.toNat ≤ 0x6FC)
  || c.toNat == 0x6FF

/-- Count of Arabic-block characters in a text. -/
def arabicCharCount (text : List Char) : Nat :=
  (text.filter isArabicChar).length

/-- Count of alphabetic characters in a text. -/
def alphaCharCount (text : List Char) : Nat :=
  (text.filter pyIsAlpha).length

/-- `is_arabic_text` (`chat.py` lines 206-222): true when more than half of
the alphabetic characters are Arabic-block characters. The source compares
the float quotient `arabic_chars / total_chars > 0.5`; for positive
`total_chars` this holds exactly when `2 * arabic_chars > total_chars`
(the comparison is exact at realistic counts, far below 2^53), which is the
integer form used here. -/
def is_arabic_text (text : List Char) : Bool :=
  if text.isEmpty then false
  else
    let arabic_chars := arabicCharCount text
    let total_chars := alphaCharCount text
    if total_chars == 0 then false
    else 2 * arabic_chars > total_chars

/-- The greeting/small-talk pattern list of `is_basic_conversation` (`chat.py` lines 23-53), duplicates included. -/
def basic_patterns : List (List Char) :=
  ["مرحبا".data, "أهلا".data, "السلام".data, "السلام عليكم".data, "مرحبا بك".data, "مرحبا وسهلا".data, "أهلا وسهلا".data, "مرحبا بك".data, "أهلا بك".data, "صباح الخير".data, "مساء الخير".data, "مساء النور".data, "كيف حالك".data, "كيف أنت".data, "كيف الحال".data, "أخبارك".data, "كيفك".data, "كيف حالك".data, "كيف أنت".data, "كيف الحال".data, "أخبارك إيه".data, "أخبارك كيف".data, "أخبارك شلون".data, "ماذا تفعل".data, "ما عملك".data, "ما الذي تفعله".data, "شو تعمل".data, "شو تسوي".data, "شو عم تعمل".data, "إيش تعمل".data, "إيش تسوي".data, "إيش عم تعمل".data, "شكرا".data, "شكرا لك".data, "متشكر".data, "متشكرة".data, "شكرا جزيلا".data, "شكرا كثير".data, "شكرا كتير".data, "الله يعطيك العافية".data, "الله يبارك فيك".data, "من أنت".data, "ما اسمك".data, "من تكون".data, "شو اسمك".data, "إيش اسمك".data, "شو انت".data, "من انت".data, "إيش انت".data, "شو هويتك".data, "ماذا تعرف".data, "ماذا تفهم".data, "ما قدراتك".data, "شو تعرف".data, "إيش تعرف".data, "شو تقدر".data, "إيش تقدر".data, "شو تعرف تعمل".data, "إيش تعرف تعمل".data]

/-- Domain-name terms of `is_doha_magazine_related` (`chat.py` lines 283-286). -/
def doha_terms : List (List Char) :=
  ["دوحة".data, "doha".data, "مجلة".data, "magazine".data, "مجلة الدوحة".data, "doha magazine".data, "ثقافي".data, "cultural".data, "أدبي".data, "literary".data, "ثقافة".data, "culture".data, "أدب".data, "literature".data]

/-- Article/content terms of `is_doha_magazine_related` (`chat.py` lines 292-296). -/
def article_terms : List (List Char) :=
  ["مقالات".data, "articles".data, "مقال".data, "article".data, "أحدث".data, "latest".data, "جديد".data, "new".data, "حديث".data, "recent".data, "مؤخر".data, "recently".data, "محتوى".data, "content".data, "نشر".data, "published".data, "أخبار".data, "news".data, "موضوع".data, "topic".data, "مواضيع".data, "topics".data]

/-- Cultural/literary terms of `is_doha_magazine_related` (`chat.py` lines 302-306). -/
def cultural_terms : List (List Char) :=
  ["شعر".data, "poetry".data, "شاعر".data, "poet".data, "رواية".data, "novel".data, "قصة".data, "story".data, "فن".data, "art".data, "فنان".data, "artist".data, "كتاب".data, "book".data, "كاتب".data, "writer".data, "نقد".data, "criticism".data, "ناقد".data, "critic".data, "دراسة".data, "study".data, "بحث".data, "research".data]

/-- Basic-conversation terms of `is_doha_magazine_related` (`chat.py` lines 312-315). -/
def basic_conversation_terms : List (List Char) :=
  ["مرحبا".data, "hello".data, "أهلا".data, "hi".data, "كيف حالك".data, "how are you".data, "ماذا تفعل".data, "what do you do".data, "من أنت".data, "who are you".data]

/-- Reference words of `enhance_query_with_context` (`chat.py` lines 412-416). -/
def reference_words : List (List Char) :=
  ["he".data, "she".data, "it".data, "they".data, "that".data, "this".data, "those".data, "هو".data, "هي".data, "هذا".data, "هذه".data, "ذلك".data, "تلك".data, "نفس".data, "same".data, "also".data, "too".data, "more".data, "other".data]

/-- The fixed cannot-answer phrasings of `generate_chat_response` (`chat.py` lines 650-657). -/
def unanswered_indicators : List (List Char) :=
  ["عذراً، لا أجد معلومات".data, "لا أستطيع الإجابة".data, "لا توجد معلومات".data, "غير متوفر".data, "لا يوجد".data, "عذراً، لا أجد معلومات كافية في محتوى مجلة الدوحة".data]

/-- The fixed Arabic redirect answer for non-Arabic input (`chat.py` line 518). -/
def english_redirect_response : List Char :=
  "أهلاً وسهلاً! أنا مساعد متخصص في محتوى مجلة الدوحة. أتحدث العربية فقط، يرجى الكتابة باللغة العربية للاستفادة من خدماتي بشكل أفضل. شكراً لك!".data

/-- The fixed decline answer for out-of-scope questions (`chat.py` line 536). -/
def decline_message : List Char :=
  "عذراً، أنا مساعد متخصص في محتوى مجلة الدوحة فقط. لا أستطيع الإجابة على أسئلة خارج نطاق المحتوى المتاح في المجلة.".data

/-- `is_basic_conversation` (`chat.py` lines 18-56): the lowercased, stripped
query contains one of the fixed greeting/small-talk patterns. -/
def is_basic_conversation (query : List Char) : Bool :=
  let query_lower := pyStrip (pyLower query)
  basic_patterns.any (fun pattern => pyIn pattern query_lower)

/-- A search result dict as produced by `hybrid_search`
(`retrieval.py` lines 41-56): the keys `id`, `title`, `url`, `summary`,
`content` and `score` are always present. -/
structure Doc where
  id : List Char
  title : List Char
  url : List Char
  summary : List Char
  content : List Char
  score : Rat
  deriving DecidableEq, Repr

/-- The `Source` pydantic object (`app/models.py`). -/
structure Source where
  title : List Char
  url : List Char
  content : Option (List Char)
  score : Option Rat
  deriving DecidableEq, Repr

/-- `is_doha_magazine_related` (`chat.py` lines 271-321): any retrieval hit,
or any of the four fixed keyword groups occurring in the lowercased stripped
query, marks the query as related. -/
def is_doha_magazine_related (query : List Char) (retrieved_sources : List Source) : Bool :=
  let query_lower := pyStrip (pyLower query)
  if retrieved_sources.length > 0 then true
  else if doha_terms.any (fun term => pyIn term query_lower) then true
  else if article_terms.any (fun term => pyIn term query_lower) then true
  else if cultural_terms.any (fun term => pyIn term query_lower) then true
  else if basic_conversation_terms.any (fun term => pyIn term query_lower) then true
  else false

/-- A `{"role": ..., "text": ...}` history dict handed to
`enhance_query_with_context` (`chat.py` lines 473-476). -/
structure HistMsg where
  role : String
  text : List Char
  deriving DecidableEq, Repr

/-- Python `l[-n:]` for a positive literal `n`. -/
def pyTakeLast (n : Nat) (l : List α) : List α :=
  l.drop (l.length - n)

/-- `enhance_query_with_context` (`chat.py` lines 396-434): with fewer than 2
history entries the query is returned unchanged; otherwise, when a reference
word occurs in the lowercased query or the query has fewer than 5 tokens, the
text of the last user message among the last 4 history entries is prepended
and the result is truncated to 500 characters. -/
def enhance_query_with_context (current_query : List Char)
    (conversation_history : List HistMsg) : List Char :=
  if conversation_history.length < 2 then current_query
  else
    let query_lower := pyLower current_query
    let has_reference := reference_words.any (fun word => pyIn word query_lower)
    if has_reference = true ∨ wordCount current_query < 5 then
      let recent_context := (pyTakeLast 4 conversation_history).filterMap
        (fun msg => if msg.role == "user" then some msg.text else none)
      match recent_context.getLast? with
      | some u => (u ++ ' ' :: current_query).take 500
      | none => current_query
    else current_query

/-! ## Retrieval context formatting (`retrieval.py`) -/

/-- One formatted context block
(`f"[{i}] {title}\n{content}\nSource: {url}\n"`). -/
def contextEntry (i : Nat) (doc : Doc) : List Char :=
  '[' :: (Nat.toDigits 10 i) ++ ']' :: ' ' :: doc.title ++ '\n' :: doc.content
    ++ '\n' :: "Source: ".data ++ doc.url ++ ['\n']

/-- The accumulation loop of `format_context_for_llm`
(`retrieval.py` lines 81-96), returning both the formatted blocks and the
list of included documents. The loop breaks before the first document whose
word count would push the running total over `max_tokens`. -/
def format_context_loop : List Doc → Nat → Nat → Nat → (List (List Char) × List Doc)
  | [], _, _, _ => ([], [])
  | doc :: rest, i, token_count, max_tokens =>
    let chunk_words := wordCount doc.content
    if token_count + chunk_words > max_tokens then ([], [])
    else
      let r := format_context_loop rest (i + 1) (token_count + chunk_words) max_tokens
      (contextEntry i doc :: r.1, doc :: r.2)

/-- `format_context_for_llm` (`retrieval.py` lines 67-97). -/
def format_context_for_llm (search_results : List Doc) (max_tokens : Nat) : List Char :=
  if search_results.isEmpty then "No relevant information found.".data
  else (List.intercalate ['\n'] (format_context_loop search_results 1 0 max_tokens).1)

/-- The documents whose content is included in the formatted context. -/
def includedDocs (search_results : List Doc) (max_tokens : Nat) : List Doc :=
  (format_context_loop search_results 1 0 max_tokens).2

/-! ## The chat pipeline (`generate_chat_response`, `chat.py` lines 437-706)

External effects are modelled as oracle inputs: `searchOutcome` is the result
of the `hybrid_search` call of step 3 (either the result list or the caught
exception's message), and `llmAnswer` is the final answer text after the LLM
generation/retry loop and citation stripping of step 6 (the query
normalization of step 2.5 only shapes the text sent to these two external
services, so it is absorbed by the oracles). Storage writes are not part of
the observations the claims are about and are omitted. -/

/-- Which return statement of `generate_chat_response` produced the answer. -/
inductive ChatBranch
  | redirected
  | declined
  | answered
  deriving DecidableEq, Repr

/-- The observable outcome of one `generate_chat_response` call.
`retrievalPerformed` records whether control reached the unconditional
`hybrid_search` call of step 3; `logged` carries the question text and
reason code passed to `log_unanswered_question`, when any. -/
structure ChatOutcome where
  answer : List Char
  sources : List Source
  logged : Option (List Char × String)
  retrievalPerformed : Bool
  branch : ChatBranch
  deriving DecidableEq, Repr

/-- The source-extraction loop of step 7 (`chat.py` lines 630-640):
deduplicate by url over the first 4 results, skipping empty urls. -/
def extractSourcesLoop : List Doc → List (List Char) → List Source
  | [], _ => []
  | r :: rest, seen_urls =>
    let url := r.url
    if url ≠ [] ∧ url ∉ seen_urls then
      { title := r.title, url := url, content := none, score := some r.score }
        :: extractSourcesLoop rest (url :: seen_urls)
    else extractSourcesLoop rest seen_urls

/-- Sources attached to the final answer (`search_results[:4]`, deduplicated
by url). -/
def extract_sources (search_results : List Doc) : List Source :=
  extractSourcesLoop (search_results.take 4) []

/-- Average `@search.score` over the result list, `0` when empty
(`chat.py` line 513). -/
def avgScore (search_results : List Doc) : Rat :=
  if search_results.isEmpty then 0
  else (search_results.map Doc.score).sum / (search_results.length : Rat)

/-- The result list the pipeline works with: the caught search exception
yields an empty list (`chat.py` lines 500-505). -/
def searchDocs (searchOutcome : Except (List Char) (List Doc)) : List Doc :=
  match searchOutcome with
  | .ok docs => docs
  | .error _ => []

/-- The `search_error` variable: `None` on success, the exception text on
failure. -/
def searchError (searchOutcome : Except (List Char) (List Doc)) : Option (List Char) :=
  match searchOutcome with
  | .ok _ => none
  | .error e => some e

/-- Python truthiness of an `Optional[str]` value: truthy exactly when it is
not `None` and not the empty string. -/
def pyTruthyStr : Option (List Char) → Bool
  | none => false
  | some s => !s.isEmpty

/-- The reason-code selection of `chat.py` lines 693-700. The first test is
`if search_error:` — Python string truthiness, so an exception whose text is
empty counts as no error and falls through to the later branches. -/
def unansweredReason (search_error : Option (List Char)) (has_results : Bool)
    (avg_score : Rat) : String :=
  if pyTruthyStr search_error then "search_error"
  else if !has_results then "no_results"
  else if avg_score < 3/10 then "low_score"
  else "insufficient_information"

/-- Steps 1-2 of `generate_chat_response` (`chat.py` lines 464-482): the
query used for the relevance check, enhanced with conversation context for
existing sessions with history. -/
def enhancedQuery (message : List Char) (isNewSession : Bool)
    (history : List HistMsg) : List Char :=
  let history_dicts := if isNewSession then [] else history
  if isNewSession || history_dicts.isEmpty then message
  else enhance_query_with_context message history_dicts

/-- `generate_chat_response` (`chat.py` lines 437-706) as a function of the
incoming message, the session situation (`isNewSession` is the Python
`is_new_session`; `history` is the `history_dicts` list an existing session
loads) and the two external oracles. -/
def generate_chat_response (message : List Char) (isNewSession : Bool)
    (history : List HistMsg) (searchOutcome : Except (List Char) (List Doc))
    (llmAnswer : List Char) : ChatOutcome :=
  let enhanced_query := enhancedQuery message isNewSession history
  let search_results := searchDocs searchOutcome
  let search_error := searchError searchOutcome
  let sources_for_check := search_results.map (fun r =>
    ({ title := r.title, url := r.url, content := some r.content,
       score := some r.score } : Source))
  let is_related := is_doha_magazine_related enhanced_query sources_for_check
  let has_results := search_results.length > 0
  let avg_score := avgScore search_results
  if !is_arabic_text message then
    { answer := english_redirect_response, sources := [], logged := none,
      retrievalPerformed := true, branch := .redirected }
  else
    let is_basic_greeting := is_basic_conversation message
    if !is_basic_greeting && (!is_related && has_results) then
      { answer := decline_message, sources := [], logged := none,
        retrievalPerformed := true, branch := .declined }
    else
      let search_results := if is_basic_greeting then [] else search_results
      let has_results := if is_basic_greeting then false else has_results
      let avg_score := if is_basic_greeting then 0 else avg_score
      let is_related := if is_basic_greeting then true else is_related
      let answer := llmAnswer
      let sources := extract_sources search_results
      let llm_says_cant_answer :=
        unanswered_indicators.any (fun indicator => pyIn indicator answer)
      let question_is_valid := !message.isEmpty && (pyStrip message).length > 3
        && !(pyIsSpaceStr (pyStrip message))
      let bot_provided_answer := sources.length > 0
        || ((pyStrip answer).length > 50 && !llm_says_cant_answer)
      let should_log := is_related && !is_basic_greeting && question_is_valid
        && llm_says_cant_answer && !bot_provided_answer
      let logged :=
        if should_log then
          some (message, unansweredReason search_error has_results avg_score)
        else none
      { answer := answer, sources := sources, logged := logged,
        retrievalPerformed := true, branch := .answered }

/-! ## Claims about the chat pipeline -/

/-- C4 counterexample: the claim states that a non-predominantly-Arabic
message "skips retrieval", but the unconditional `hybrid_search` call of
step 3 (`chat.py` line 501) precedes the language check of step 3.6
(line 517): for the concrete message `hello` (Arabic-to-alphabetic ratio 0,
hence at most one half) the pipeline still reaches the retrieval call. -/
theorem redirect_performs_retrieval_cex :
    2 * arabicCharCount "hello".data ≤ alphaCharCount "hello".data ∧
    (generate_chat_response "hello".data true [] (Except.ok []) []).branch
      = ChatBranch.redirected ∧
    (generate_chat_response "hello".data true [] (Except.ok []) []).retrievalPerformed
      = true := by decide

/-- C4 (amended): for every input message whose count of Arabic-script
characters is at most half of its alphabetic characters (including messages
with no alphabetic characters at all), `generate_chat_response` returns the
fixed Arabic redirect answer with an empty source list and never emits an
unanswered-question log entry; retrieval, however, is still invoked before
the language check (its results are discarded). -/
theorem non_arabic_message_redirected (message : List Char) (isNew : Bool)
    (hist : List HistMsg) (searchOutcome : Except (List Char) (List Doc))
    (ans : List Char)
    (h : 2 * arabicCharCount message ≤ alphaCharCount message
      ∨ alphaCharCount message = 0) :
    (generate_chat_response message isNew hist searchOutcome ans).answer
        = english_redirect_response ∧
    (generate_chat_response message isNew hist searchOutcome ans).sources = [] ∧
    (generate_chat_response message isNew hist searchOutcome ans).logged = none ∧
    (generate_chat_response message isNew hist searchOutcome ans).retrievalPerformed
        = true ∧
    (generate_chat_response message isNew hist searchOutcome ans).branch
        = ChatBranch.redirected := by
  have har : is_arabic_text message = false := by
    simp only [is_arabic_text]
    split
    · rfl
    · split
      · rfl
      · rename_i hne hz
        simp only [beq_iff_eq] at hz
        rcases h with h | h
        · simp only [decide_eq_false_iff_not]
          omega
        · exact absurd h hz
  simp [generate_chat_response, har]

/-- Witness for the amended C4 at the concrete message `hello`. -/
theorem non_arabic_message_redirected_witness :
    (generate_chat_response "hello".data true [] (Except.ok []) []).answer
        = english_redirect_response ∧
    (generate_chat_response "hello".data true [] (Except.ok []) []).sources = [] ∧
    (generate_chat_response "hello".data true [] (Except.ok []) []).logged = none ∧
    (generate_chat_response "hello".data true [] (Except.ok []) []).retrievalPerformed
        = true ∧
    (generate_chat_response "hello".data true [] (Except.ok []) []).branch
        = ChatBranch.redirected :=
  non_arabic_message_redirected "hello".data true [] (Except.ok []) []
    (Or.inl (by decide))

/-- The two-entry history of the first C5 counterexample: the most recent
user utterance is 600 characters long. -/
def histCex : List HistMsg :=
  [{ role := "user", text := List.replicate 600 'a' },
   { role := "assistant", text := "x".data }]

/-- The five-entry history of the second C5 counterexample: it contains a
user utterance, but none among its last 4 entries (consecutive assistant
messages occur, e.g. the redirect and decline paths of `chat.py` lines 519
and 537 save only the assistant turn). -/
def histCex2 : List HistMsg :=
  [{ role := "user", text := "x".data },
   { role := "assistant", text := "a1".data },
   { role := "assistant", text := "a2".data },
   { role := "assistant", text := "a3".data },
   { role := "assistant", text := "a4".data }]

set_option maxRecDepth 40000 in
/-- C5 counterexample, refuting the claim in its two universal parts for the
reference-word query `هذا` (referential language is detected in both
scenarios). First, "never drops the current query's own text": with the
2-entry history `histCex`, whose previous user utterance is 600 characters
long, the 500-character truncation (`enhanced[:500]`, `chat.py` line 432)
cuts the current query off entirely. Second, "prepends the most recent user
utterance from the history": with the 5-entry history `histCex2`, whose only
user utterance lies before the last 4 entries (the loop of `chat.py`
line 425 scans `conversation_history[-4:]` only), nothing is prepended and
the query is returned unchanged, not the prepended-and-truncated string the
claim demands. -/
theorem enhance_truncation_drops_query_cex :
    (2 ≤ histCex.length ∧
     reference_words.any (fun word => pyIn word (pyLower "هذا".data)) = true ∧
     pyIn "هذا".data (enhance_query_with_context "هذا".data histCex) = false) ∧
    (2 ≤ histCex2.length ∧
     histCex2.filterMap
       (fun msg => if msg.role == "user" then some msg.text else none) = ["x".data] ∧
     enhance_query_with_context "هذا".data histCex2 = "هذا".data ∧
     ("x".data ++ ' ' :: "هذا".data).take 500 ≠ "هذا".data) := by decide

/-- C5 (amended): with at least 2 history entries and referential language
detected (reference word present or query shorter than 5 tokens), if the
last 4 history entries contain a user utterance, the context-enhancement
step prepends the text `u` of the most recent such utterance to the current
query and truncates the result to 500 characters — the returned string then
contains the full current query whenever the combined length fits within the
truncation limit; if the last 4 history entries contain no user utterance,
the query is returned unchanged. With fewer than 2 history entries the query
is returned unchanged. -/
theorem enhance_query_with_context_amended (q u : List Char) (hist : List HistMsg)
    (h2 : 2 ≤ hist.length)
    (hdet : reference_words.any (fun word => pyIn word (pyLower q)) = true
      ∨ wordCount q < 5)
    (hu : ((pyTakeLast 4 hist).filterMap
        (fun msg => if msg.role == "user" then some msg.text else none)).getLast?
      = some u) :
    enhance_query_with_context q hist = (u ++ ' ' :: q).take 500 ∧
    (u.length + 1 + q.length ≤ 500 → q <:+ enhance_query_with_context q hist) ∧
    (∀ (q2 : List Char) (hist2 : List HistMsg), hist2.length < 2 →
      enhance_query_with_context q2 hist2 = q2) ∧
    (∀ (q3 : List Char) (hist3 : List HistMsg),
      ((pyTakeLast 4 hist3).filterMap
        (fun msg => if msg.role == "user" then some msg.text else none)).getLast?
          = none →
      enhance_query_with_context q3 hist3 = q3) := by
  have heq : enhance_query_with_context q hist = (u ++ ' ' :: q).take 500 := by
    simp only [enhance_query_with_context]
    rw [if_neg (by omega), if_pos hdet, hu]
  refine ⟨heq, ?_, ?_, ?_⟩
  · intro hlen
    rw [heq, List.take_of_length_le (by simp; omega)]
    exact ⟨u ++ [' '], by simp⟩
  · intro q2 hist2 hl
    simp only [enhance_query_with_context]
    rw [if_pos hl]
  · intro q3 hist3 hnone
    simp only [enhance_query_with_context]
    split
    · rfl
    · split
      · rw [hnone]
      · rfl

/-- The small concrete history of the C5 witness. -/
def histW : List HistMsg :=
  [{ role := "user", text := "b".data }, { role := "assistant", text := "c".data }]

/-- Witness for the amended C5: a one-token query with a two-entry history
gets the previous user utterance prepended and keeps its own text. -/
theorem enhance_query_with_context_amended_witness :
    enhance_query_with_context "a".data histW = ("b".data ++ ' ' :: "a".data).take 500 ∧
    "a".data <:+ enhance_query_with_context "a".data histW :=
  have h := enhance_query_with_context_amended "a".data "b".data histW (by decide)
    (Or.inr (by decide)) (by decide)
  ⟨h.1, h.2.1 (by decide)⟩

/-- Characterization of the log entry: either nothing is logged, or the
message was not a greeting and the logged entry is the message itself with
the reason code computed from the unmodified retrieval outcome. -/
theorem generate_chat_response_logged (message : List Char) (isNew : Bool)
    (hist : List HistMsg) (searchOutcome : Except (List Char) (List Doc))
    (ans : List Char) :
    (generate_chat_response message isNew hist searchOutcome ans).logged = none ∨
    (is_basic_conversation message = false ∧
     (generate_chat_response message isNew hist searchOutcome ans).logged
       = some (message, unansweredReason (searchError searchOutcome)
           ((searchDocs searchOutcome).length > 0)
           (avgScore (searchDocs searchOutcome)))) := by
  simp only [generate_chat_response]
  split
  · exact Or.inl rfl
  · split
    · exact Or.inl rfl
    · by_cases hg : is_basic_conversation message = true
      · exact Or.inl (by simp [hg])
      · have hg2 : is_basic_conversation message = false := by simpa using hg
        simp only [hg2, Bool.false_eq_true, if_false, Bool.not_false, Bool.true_and]
        split
        · refine Or.inr ⟨by trivial, ?_⟩
          rfl
        · exact Or.inl rfl

/-- C6 counterexample: the claim states that a retrieval error being present
yields `search_error`, but `chat.py` line 693 tests `if search_error:` —
Python string truthiness — so an exception whose text is empty counts as no
error: for the concrete in-scope question below a retrieval error is present
(the search call raised) yet the emitted log entry carries reason
`no_results`. -/
theorem empty_search_error_reason_cex :
    (searchError (Except.error [] : Except (List Char) (List Doc))).isSome = true ∧
    (generate_chat_response "ما هي مجلة الدوحة".data true []
        (Except.error []) "لا يوجد".data).logged
      = some ("ما هي مجلة الدوحة".data, "no_results") := by decide

/-- C6 (amended): whenever an unanswered-question log entry is emitted, its
reason code follows the priority of `chat.py` lines 693-700: a retrieval
error with non-empty text yields `search_error`; otherwise zero retrieved
candidates yields `no_results`; otherwise an average candidate score below
`0.3` yields `low_score`; otherwise `insufficient_information`. A non-empty
retrieval error takes priority over emptiness of the candidate list; an
exception with empty text falls through to `no_results`. -/
theorem unanswered_reason_priority (message : List Char) (isNew : Bool)
    (hist : List HistMsg) (searchOutcome : Except (List Char) (List Doc))
    (ans q : List Char) (r : String)
    (h : (generate_chat_response message isNew hist searchOutcome ans).logged
      = some (q, r)) :
    r = (if pyTruthyStr (searchError searchOutcome) then "search_error"
         else if !((searchDocs searchOutcome).length > 0 : Bool) then "no_results"
         else if avgScore (searchDocs searchOutcome) < 3/10 then "low_score"
         else "insufficient_information") := by
  rcases generate_chat_response_logged message isNew hist searchOutcome ans with
    hn | ⟨hg, hs⟩
  · rw [hn] at h
    exact absurd h (by simp)
  · rw [hs] at h
    simp only [Option.some.injEq, Prod.mk.injEq] at h
    rw [← h.2]
    rfl

/-- Witness for the amended C6: a valid in-scope Arabic question with a
failing retrieval call (non-empty error text) and a cannot-answer generation
gets logged with reason `search_error` (the error takes priority even though
the candidate list is also empty). -/
theorem unanswered_reason_priority_witness :
    "search_error"
      = (if pyTruthyStr (searchError (Except.error "boom".data
            : Except (List Char) (List Doc))) then "search_error"
         else if !((searchDocs (Except.error "boom".data
            : Except (List Char) (List Doc))).length > 0 : Bool) then "no_results"
         else if avgScore (searchDocs (Except.error "boom".data
            : Except (List Char) (List Doc))) < 3/10 then "low_score"
         else "insufficient_information") :=
  unanswered_reason_priority "ما هي مجلة الدوحة".data true []
    (Except.error "boom".data) "لا يوجد".data "ما هي مجلة الدوحة".data
    "search_error" (by decide)

/-- A nonempty retrieved-source list marks the query as related
(`chat.py` lines 278-280). -/
theorem related_of_sources_nonempty (q : List Char) (ss : List Source)
    (h : ss ≠ []) : is_doha_magazine_related q ss = true := by
  unfold is_doha_magazine_related
  have hl : ss.length > 0 := List.length_pos.mpr h
  simp [hl]

/-- C8: the fixed decline message is never returned: the decline branch
requires relevance to be false while at least one retrieval candidate
exists, but `is_doha_magazine_related` returns true whenever the retrieved
source list is non-empty, so for every input message and every retrieval
outcome the call ends in the redirect or the answered branch, never the
decline branch. -/
theorem decline_branch_unreachable (message : List Char) (isNew : Bool)
    (hist : List HistMsg) (searchOutcome : Except (List Char) (List Doc))
    (ans : List Char) :
    (generate_chat_response message isNew hist searchOutcome ans).branch
        = ChatBranch.redirected ∨
    (generate_chat_response message isNew hist searchOutcome ans).branch
        = ChatBranch.answered := by
  simp only [generate_chat_response]
  split
  · exact Or.inl rfl
  · split
    · rename_i hcond
      exfalso
      simp only [Bool.and_eq_true, Bool.not_eq_true'] at hcond
      rcases hcond with ⟨hgreet, hrel, hres⟩
      have hne : (searchDocs searchOutcome).map (fun r =>
          ({ title := r.title, url := r.url, content := some r.content,
             score := some r.score } : Source)) ≠ [] := by
        simp only [ne_eq, List.map_eq_nil_iff]
        intro hnil
        rw [hnil] at hres
        simp at hres
      rw [related_of_sources_nonempty _ _ hne] at hrel
      exact Bool.noConfusion hrel
    · exact Or.inr rfl

/-- C9: a message matching the fixed greeting/small-talk pattern set never
emits an unanswered-question log entry, regardless of the retrieval outcome
and of the generated answer's content. -/
theorem greeting_never_logged (message : List Char) (isNew : Bool)
    (hist : List HistMsg) (searchOutcome : Except (List Char) (List Doc))
    (ans : List Char) (h : is_basic_conversation message = true) :
    (generate_chat_response message isNew hist searchOutcome ans).logged = none := by
  simp only [generate_chat_response]
  split
  · rfl
  · split
    · rfl
    · simp [h]

/-- Witness for C9: the greeting `مرحبا` is not logged even with a search
error and a cannot-answer generation. -/
theorem greeting_never_logged_witness :
    (generate_chat_response "مرحبا".data true [] (Except.error "boom".data)
      "لا يوجد".data).logged = none :=
  greeting_never_logged "مرحبا".data true [] (Except.error "boom".data)
    "لا يوجد".data (by decide)

/-! ## Claims about context formatting (`format_context_for_llm`) -/

/-- The included documents form a prefix of the result list (the loop breaks
at the first overflowing document). -/
theorem includedDocs_loop_ordered : ∀ (docs : List Doc) (i tc mt : Nat),
    (format_context_loop docs i tc mt).2 <+: docs := by
  intro docs
  induction docs with
  | nil => intro i tc mt; simp [format_context_loop]
  | cons d rest ih =>
    intro i tc mt
    simp only [format_context_loop]
    split
    · simp
    · obtain ⟨t, ht⟩ := ih (i + 1) (tc + wordCount d.content) mt
      exact ⟨t, by simp [ht]⟩

/-- The running word total never exceeds the budget. -/
theorem includedDocs_loop_budget : ∀ (docs : List Doc) (i tc mt : Nat), tc ≤ mt →
    tc + ((format_context_loop docs i tc mt).2.map (fun d => wordCount d.content)).sum
      ≤ mt := by
  intro docs
  induction docs with
  | nil => intro i tc mt h; simpa [format_context_loop]
  | cons d rest ih =>
    intro i tc mt h
    simp only [format_context_loop]
    split
    · simpa
    · rename_i hle
      have h2 : tc + wordCount d.content ≤ mt := by omega
      have h3 := ih (i + 1) (tc + wordCount d.content) mt h2
      simp only [List.map_cons, List.sum_cons]
      omega

/-- The head of a nonempty result list is included when its own word count
fits the budget. -/
theorem includedDocs_head (d : Doc) (rest : List Doc) (mt : Nat)
    (h : wordCount d.content ≤ mt) : d ∈ includedDocs (d :: rest) mt := by
  unfold includedDocs
  simp only [format_context_loop]
  rw [if_neg (by omega)]
  simp

/-- C7: `format_context_for_llm` includes results in their given ranking
order (the included documents are a prefix of the input), the sum of the word
counts of the included passages is at most `max_tokens`, and the first
candidate is always included whenever the list is non-empty and its own word
count does not exceed the budget. -/
theorem format_context_within_budget (docs : List Doc) (max_tokens : Nat) :
    includedDocs docs max_tokens <+: docs ∧
    ((includedDocs docs max_tokens).map (fun d => wordCount d.content)).sum
      ≤ max_tokens ∧
    (∀ d rest, docs = d :: rest → wordCount d.content ≤ max_tokens →
      d ∈ includedDocs docs max_tokens) := by
  refine ⟨includedDocs_loop_ordered docs 1 0 max_tokens, ?_, ?_⟩
  · have h := includedDocs_loop_budget docs 1 0 max_tokens (Nat.zero_le _)
    simpa [includedDocs] using h
  · intro d rest hd hw
    subst hd
    exact includedDocs_head d rest max_tokens hw

/-- Concrete retrieval result for the C7 witness. -/
def rdocW : Doc :=
  { id := "1".data, title := "t".data, url := "u".data, summary := [],
    content := "hello world".data, score := 1 }

/-- Witness for C7 on a one-element result list with budget 10. -/
theorem format_context_within_budget_witness :
    ((includedDocs [rdocW] 10).map (fun d => wordCount d.content)).sum ≤ 10 ∧
    rdocW ∈ includedDocs [rdocW] 10 :=
  ⟨(format_context_within_budget [rdocW] 10).2.1,
   (format_context_within_budget [rdocW] 10).2.2 rdocW [] rfl (by decide)⟩

end DohaMag
